import Mathlib

/-!
Shallow embedding of the IoT fleet device session
(`src/devices/simulators/base_device.py`) and schema validator
(`src/devices/simulators/schema_validator.py`).
-/

namespace IoTFleet

/-- JSON values exchanged on the wire.  Numbers are decimal:
`num m e` denotes `m / 10 ^ e` (so `22.5` is `num 225 1` and an
integer `t` is `num t 0`). -/
inductive Json where
  | null : Json
  | bool (b : Bool) : Json
  | num (mantissa : Int) (exp : Nat) : Json
  | str (s : String) : Json
  | obj (fields : List (String × Json)) : Json

/-- Field lookup in a JSON object (first match, like a Python dict key). -/
def Json.getField : Json → String → Option Json
  | .obj fields, k => (fields.find? (fun p => p.1 == k)).map (·.2)
  | _, _ => none

/-- Modelled from the spec: the structural field types that the three schema
files (`telemetry.schema.json`, `alert.schema.json`, `command.schema.json`,
which live outside `src/`) use: string, integer, object, and string enum. -/
inductive JTy where
  | jstr : JTy
  | jint : JTy
  | jobj : JTy
  | jenum (vals : List String) : JTy

/-- Structural type check of one JSON value. -/
def JTy.check : JTy → Json → Bool
  | .jstr, .str _ => true
  | .jint, .num _ e => e == 0
  | .jobj, .obj _ => true
  | .jenum vs, .str s => vs.contains s
  | _, _ => false

/-- Modelled from the spec: a structural schema is a set of required,
typed top-level fields of a JSON object (additional fields allowed). -/
structure Schema where
  required : List (String × JTy)

/-- A message conforms to a schema iff it is an object carrying every
required field with the required structural type. -/
def Schema.check (sch : Schema) (m : Json) : Bool :=
  match m with
  | .obj _ => sch.required.all fun p =>
      match m.getField p.1 with
      | some v => p.2.check v
      | none => false
  | _ => false

/-- Modelled from the spec: the telemetry envelope schema
`{device_id: string, timestamp: int seconds, type: "sensor"|"actuator", payload: object}`. -/
def telemetrySchema : Schema :=
  ⟨[("device_id", .jstr), ("timestamp", .jint),
    ("type", .jenum ["sensor", "actuator"]), ("payload", .jobj)]⟩

/-- Modelled from the spec: the alert envelope shares the telemetry
envelope's outer shape. -/
def alertSchema : Schema :=
  ⟨[("device_id", .jstr), ("timestamp", .jint),
    ("type", .jenum ["sensor", "actuator"]), ("payload", .jobj)]⟩

/-- Modelled from the spec: the command schema
`{request_id: string, action: string, parameters: object}`. -/
def commandSchema : Schema :=
  ⟨[("request_id", .jstr), ("action", .jstr), ("parameters", .jobj)]⟩

/-- Outcome of opening and parsing one schema file
(`FileNotFoundError` / `json.JSONDecodeError` in `_load_schemas`). -/
inductive LoadResult where
  | ok (sch : Schema) : LoadResult
  | notFound : LoadResult
  | malformed : LoadResult

/-- The fixed name-to-filename table of `SchemaValidator._load_schemas`. -/
def schema_files : List (String × String) :=
  [("telemetry", "telemetry.schema.json"),
   ("alert", "alert.schema.json"),
   ("command", "command.schema.json")]

/-- `SchemaValidator._load_schemas`: each file that opens and parses
contributes its schema under its name; a missing or malformed file
contributes nothing (that name stays absent). -/
def load_schemas (fs : String → LoadResult) : List (String × Schema) :=
  schema_files.foldl
    (fun acc p =>
      match fs p.2 with
      | .ok sch => acc ++ [(p.1, sch)]
      | .notFound => acc
      | .malformed => acc)
    []

/-- Dictionary lookup `schema_name in self.schemas` / `self.schemas[schema_name]`. -/
def lookupSchema (schemas : List (String × Schema)) (name : String) : Option Schema :=
  (schemas.find? (fun p => p.1 == name)).map (·.2)

/-- Outcome of a call to the external `jsonschema.validate`: returns
normally, raises `ValidationError` (with the violated path), or raises
some other exception. -/
inductive CheckOutcome where
  | ok : CheckOutcome
  | invalid (path : List String) : CheckOutcome
  | crash : CheckOutcome

/-- The concrete structural checker for the spec-modelled schemas
(a pure model of `jsonschema.validate` on those schemas). -/
def jsonschemaCheck (sch : Schema) (m : Json) : CheckOutcome :=
  if sch.check m then .ok else .invalid []

namespace SchemaValidator

/-- `SchemaValidator._validate`: absent schema returns `False`;
otherwise the external check runs, `ValidationError` and every other
exception are caught and turned into `False`; only a normal return
yields `True`.  `chk` stands for the external `jsonschema.validate`. -/
def validate (chk : Schema → Json → CheckOutcome)
    (schemas : List (String × Schema)) (message : Json) (schema_name : String) : Bool :=
  match lookupSchema schemas schema_name with
  | none => false
  | some sch =>
    match chk sch message with
    | .ok => true
    | .invalid _ => false
    | .crash => false

/-- `SchemaValidator.validate_telemetry`. -/
def validate_telemetry (chk : Schema → Json → CheckOutcome)
    (schemas : List (String × Schema)) (message : Json) : Bool :=
  validate chk schemas message "telemetry"

/-- `SchemaValidator.validate_alert`. -/
def validate_alert (chk : Schema → Json → CheckOutcome)
    (schemas : List (String × Schema)) (message : Json) : Bool :=
  validate chk schemas message "alert"

/-- `SchemaValidator.validate_command`. -/
def validate_command (chk : Schema → Json → CheckOutcome)
    (schemas : List (String × Schema)) (message : Json) : Bool :=
  validate chk schemas message "command"

/-- `_validate` as a state-passing operation: the Python method reads
`self.schemas` and the message and writes neither, so its stateful
embedding returns both unchanged next to the boolean result. -/
def validateSt (chk : Schema → Json → CheckOutcome)
    (schemas : List (String × Schema)) (message : Json) (schema_name : String) :
    Bool × List (String × Schema) × Json :=
  (validate chk schemas message schema_name, schemas, message)

end SchemaValidator

/-- The validator object: holds the loaded schema set. -/
structure SchemaValidatorObj where
  schemas : List (String × Schema)

/-- Module-level state of `schema_validator.py`: the global `_validator`. -/
structure ProcState where
  validatorG : Option SchemaValidatorObj

/-- `get_validator`: constructs the validator (loading schemas) on first
call and caches it in the module global; later calls return the cache. -/
def get_validator (fs : String → LoadResult) (p : ProcState) :
    SchemaValidatorObj × ProcState :=
  match p.validatorG with
  | some v => (v, p)
  | none =>
    let v : SchemaValidatorObj := ⟨load_schemas fs⟩
    (v, ⟨some v⟩)

/-- `DeviceStatus` enum of `base_device.py`. -/
inductive DeviceStatus where
  | ACTIVE : DeviceStatus
  | INACTIVE : DeviceStatus
  | ERROR : DeviceStatus
  | OFFLINE : DeviceStatus
deriving DecidableEq

/-- `DeviceConfig` fields the session logic reads (certificate paths and
broker address only feed the external transport). -/
structure DeviceConfig where
  device_id : String
  device_name : String
  device_type : String
  location : String
  publish_interval : Nat
deriving DecidableEq

/-- The mutable session state of one `BaseDevice`.  `outbox` records the
messages handed to `mqtt_client.publish` (topic, message); `handled`
records the desired states dispatched to the subclass `handle_command`. -/
structure DeviceState where
  config : DeviceConfig
  is_connected : Bool
  status : DeviceStatus
  state : Json
  last_published : List (String × Nat)
  last_heartbeat : Nat
  error_count : Nat
  uptime_seconds : Nat
  validator : SchemaValidatorObj
  outbox : List (String × Json)
  handled : List Json

/-- `BaseDevice.__init__`: fresh counters, `INACTIVE`, not connected,
and the shared validator obtained through `get_validator`. -/
def BaseDevice_init (cfg : DeviceConfig) (fs : String → LoadResult) (now : Nat)
    (p : ProcState) : DeviceState × ProcState :=
  let vp := get_validator fs p
  ({ config := cfg
     is_connected := false
     status := .INACTIVE
     state := .obj []
     last_published := []
     last_heartbeat := now
     error_count := 0
     uptime_seconds := 0
     validator := vp.1
     outbox := []
     handled := [] }, vp.2)

/-- `BaseDevice._on_connect`: on return code 0 the session becomes
connected, `ACTIVE`, and `error_count` resets to 0; on any other code the
status becomes `ERROR` and `error_count` increments (the connected flag
is left as it was). -/
def on_connect (s : DeviceState) (rc : Nat) : DeviceState :=
  if rc = 0 then
    { s with is_connected := true, status := .ACTIVE, error_count := 0 }
  else
    { s with status := .ERROR, error_count := s.error_count + 1 }

/-- `BaseDevice._on_disconnect`: the session becomes disconnected and
`OFFLINE` whatever the reason code. -/
def on_disconnect (s : DeviceState) (_rc : Int) : DeviceState :=
  { s with is_connected := false, status := .OFFLINE }

/-- `BaseDevice._on_message`: `raw = none` models a payload that fails
`json.loads` (the decode error is caught and the message dropped); an
object without a `"state"` field is ignored; a present desired state is
dispatched to `handle_command` only when `validate_command` accepts it. -/
def on_message (chk : Schema → Json → CheckOutcome) (s : DeviceState)
    (raw : Option Json) : DeviceState :=
  match raw with
  | none => s
  | some payload =>
    match payload.getField "state" with
    | none => s
    | some desired =>
      if SchemaValidator.validate_command chk s.validator.schemas desired then
        { s with handled := s.handled ++ [desired] }
      else
        s

/-- Telemetry topic `devices/{device_id}/telemetry`. -/
def telemetry_topic (cfg : DeviceConfig) : String :=
  "devices/" ++ cfg.device_id ++ "/telemetry"

/-- Shadow update topic of `update_shadow`. -/
def shadow_update_topic (cfg : DeviceConfig) : String :=
  "$aws/things/" ++ cfg.device_id ++ "/shadow/update"

/-- The `"sensor" in self.config.device_type` classification:
`"sensor"` exactly when `"sensor"` occurs as a substring. -/
def device_type_class (device_type : String) : String :=
  if "sensor".data <:+: device_type.data then "sensor" else "actuator"

/-- The envelope `publish_telemetry` builds: device id, send-time
timestamp in whole seconds, classified type, caller payload. -/
def build_telemetry_message (cfg : DeviceConfig) (now : Nat)
    (telemetry_payload : Json) : Json :=
  .obj [("device_id", .str cfg.device_id),
        ("timestamp", .num (Int.ofNat now) 0),
        ("type", .str (device_type_class cfg.device_type)),
        ("payload", telemetry_payload)]

/-- Python dict assignment `d[k] = v`. -/
def setKey (m : List (String × Nat)) (k : String) (v : Nat) : List (String × Nat) :=
  if m.any (fun p => p.1 == k) then
    m.map (fun p => if p.1 == k then (k, v) else p)
  else
    m ++ [(k, v)]

/-- `BaseDevice.publish_telemetry`.  The envelope is built and validated;
a validation failure returns with nothing changed.  Otherwise the message
is handed to the transport and the counters update — unless the transport
call (or serialization) raises, in which case the enclosing `except`
only increments `error_count`.  Note: the connected flag is never
consulted, and `status` is never written. -/
def publish_telemetry (chk : Schema → Json → CheckOutcome) (s : DeviceState)
    (now : Nat) (telemetry_payload : Json) (publishRaises : Bool) : DeviceState :=
  let topic := telemetry_topic s.config
  let message := build_telemetry_message s.config now telemetry_payload
  if !SchemaValidator.validate_telemetry chk s.validator.schemas message then
    s
  else if publishRaises then
    { s with error_count := s.error_count + 1 }
  else
    { s with
      outbox := s.outbox ++ [(topic, message)]
      last_published := setKey s.last_published topic now
      last_heartbeat := now
      uptime_seconds := s.uptime_seconds + s.config.publish_interval }

/-- The shadow document `update_shadow` publishes. -/
def build_shadow_update (reported_state : Json) : Json :=
  .obj [("state", .obj [("reported", reported_state)])]

/-- `BaseDevice.update_shadow`: publishes the reported state; its own
`except` swallows any exception without touching any counter. -/
def update_shadow (s : DeviceState) (reported_state : Json)
    (publishRaises : Bool) : DeviceState :=
  if publishRaises then
    s
  else
    { s with outbox := s.outbox ++
        [(shadow_update_topic s.config, build_shadow_update reported_state)] }

/-- The session-level events that mutate a `DeviceState`: the transport
callbacks, a telemetry publish, an inbound message, the telemetry loop
catching an iteration exception, and `connect()` raising after its
bounded wait (which sets `ERROR` before re-raising). -/
inductive Event where
  | connectAck (rc : Nat) : Event
  | disconnectEvt (rc : Int) : Event
  | publishTel (now : Nat) (telemetry_payload : Json) (publishRaises : Bool) : Event
  | message (raw : Option Json) : Event
  | loopError : Event
  | connectTimeout : Event

/-- One event applied to the session state, exactly as the source
handles it. -/
def step (chk : Schema → Json → CheckOutcome) (s : DeviceState) : Event → DeviceState
  | .connectAck rc => on_connect s rc
  | .disconnectEvt rc => on_disconnect s rc
  | .publishTel now p r => publish_telemetry chk s now p r
  | .message raw => on_message chk s raw
  | .loopError => { s with error_count := s.error_count + 1 }
  | .connectTimeout => { s with status := .ERROR }

/-- The state reached from a freshly constructed device after a trace of
events. -/
def runTrace (chk : Schema → Json → CheckOutcome) (cfg : DeviceConfig)
    (fs : String → LoadResult) (now0 : Nat) (tr : List Event) : DeviceState :=
  List.foldl (step chk) (BaseDevice_init cfg fs now0 ⟨none⟩).1 tr

/-- Events that touch the connection lifecycle (and hence `status` can
move off `INACTIVE`). -/
def connEvent : Event → Bool
  | .connectAck _ => true
  | .disconnectEvt _ => true
  | .connectTimeout => true
  | _ => false

/-- What one iteration of the `run` loop encounters: a normal cycle
(with the generated payload and whether the publish or the shadow update
raises internally), an exception escaping to the loop's `except`, a
`KeyboardInterrupt`, or the transport dropping the connection between
iterations. -/
inductive IterOutcome where
  | ok (now : Nat) (telemetry_payload : Json)
       (publishRaises shadowRaises : Bool) : IterOutcome
  | iterError : IterOutcome
  | interrupt : IterOutcome
  | connectionLost (rc : Int) : IterOutcome

/-- How the `run` loop exited: the `while` guard went false, a
`KeyboardInterrupt` was caught, or the supplied schedule ran out while
the loop would have kept going. -/
inductive ExitKind where
  | normal : ExitKind
  | interrupted : ExitKind
  | exhausted : ExitKind
deriving DecidableEq

/-- Observable actions of the `run` loop. -/
inductive Action where
  | sleep (seconds : Nat) : Action
  | disconnectCall : Action
deriving DecidableEq

/-- The `while self.is_connected` loop of `BaseDevice.run`, driven by a
schedule of iteration outcomes.  An ordinary cycle publishes telemetry,
updates the shadow with `self.state`, and sleeps the interval; an
exception caught by the loop's `except` increments `error_count` and
sleeps the same interval; a `KeyboardInterrupt` leaves the loop. -/
def run_loop (chk : Schema → Json → CheckOutcome) (interval : Nat)
    (s : DeviceState) : List IterOutcome → DeviceState × ExitKind × List Action
  | [] => if s.is_connected then (s, .exhausted, []) else (s, .normal, [])
  | o :: rest =>
    if s.is_connected then
      match o with
      | .ok now p pr sr =>
        let s1 := publish_telemetry chk s now p pr
        let s2 := update_shadow s1 s1.state sr
        let r := run_loop chk interval s2 rest
        (r.1, r.2.1, Action.sleep interval :: r.2.2)
      | .iterError =>
        let r := run_loop chk interval
          { s with error_count := s.error_count + 1 } rest
        (r.1, r.2.1, Action.sleep interval :: r.2.2)
      | .interrupt => (s, .interrupted, [])
      | .connectionLost rc => run_loop chk interval (on_disconnect s rc) rest
    else
      (s, .normal, [])

/-- `BaseDevice.run`: the loop inside `try`, with `disconnect()` invoked
in the `finally` block on every way out. -/
def BaseDevice_run (chk : Schema → Json → CheckOutcome) (interval : Nat)
    (s : DeviceState) (sched : List IterOutcome) :
    DeviceState × ExitKind × List Action :=
  let r := run_loop chk interval s sched
  (r.1, r.2.1, r.2.2 ++ [Action.disconnectCall])

/-- File system with all three schema files present and well formed,
holding the spec-modelled schemas. -/
def fsAll : String → LoadResult := fun file =>
  if file == "telemetry.schema.json" then .ok telemetrySchema
  else if file == "alert.schema.json" then .ok alertSchema
  else if file == "command.schema.json" then .ok commandSchema
  else .notFound

/-- File system with every schema file missing. -/
def fsNone : String → LoadResult := fun _ => .notFound

/-- The spec's concrete temperature sensor `device-1`. -/
def cfgTemp : DeviceConfig :=
  { device_id := "device-1"
    device_name := "Temperature Sensor"
    device_type := "temperature_sensor"
    location := "Living Room"
    publish_interval := 5 }

/-- `device-1` freshly constructed with all schemas loaded. -/
def devInit : DeviceState := (BaseDevice_init cfgTemp fsAll 0 ⟨none⟩).1

/-- `device-1` after a successful connect acknowledgment. -/
def devConn : DeviceState := on_connect devInit 0

/-- `device-1` constructed while every schema file is missing. -/
def devInitNone : DeviceState := (BaseDevice_init cfgTemp fsNone 0 ⟨none⟩).1

/-- The spec's concrete telemetry payload `{temperature: 22.5, unit: "celsius"}`. -/
def payloadTemp : Json :=
  .obj [("temperature", .num 225 1), ("unit", .str "celsius")]

/-- The spec's expected envelope for `payloadTemp` at `T = 1701648000`. -/
def envTemp : Json :=
  .obj [("device_id", .str "device-1"),
        ("timestamp", .num 1701648000 0),
        ("type", .str "sensor"),
        ("payload", payloadTemp)]

/-- The desired state `{action: "LOCK"}` of the spec's invalid-command
scenario (its `request_id` is missing). -/
def lockBody : Json := .obj [("action", .str "LOCK")]

/-- The inbound shadow delta wrapping `lockBody`. -/
def lockDelta : Json := .obj [("state", lockBody)]

/-! ## Helper lemmas -/

theorem publish_telemetry_error_count_ge
    (chk : Schema → Json → CheckOutcome) (s : DeviceState)
    (now : Nat) (p : Json) (r : Bool) :
    s.error_count ≤ (publish_telemetry chk s now p r).error_count := by
  cases hv : SchemaValidator.validate_telemetry chk s.validator.schemas
      (build_telemetry_message s.config now p) with
  | false => simp [publish_telemetry, hv]
  | true => cases r <;> simp [publish_telemetry, hv]

theorem publish_telemetry_status
    (chk : Schema → Json → CheckOutcome) (s : DeviceState)
    (now : Nat) (p : Json) (r : Bool) :
    (publish_telemetry chk s now p r).status = s.status := by
  cases hv : SchemaValidator.validate_telemetry chk s.validator.schemas
      (build_telemetry_message s.config now p) with
  | false => simp [publish_telemetry, hv]
  | true => cases r <;> simp [publish_telemetry, hv]

theorem on_message_error_count
    (chk : Schema → Json → CheckOutcome) (s : DeviceState) (raw : Option Json) :
    (on_message chk s raw).error_count = s.error_count := by
  cases raw with
  | none => rfl
  | some payload =>
    cases hf : payload.getField "state" with
    | none => simp [on_message, hf]
    | some desired =>
      cases hv : SchemaValidator.validate_command chk s.validator.schemas desired <;>
        simp [on_message, hf, hv]

theorem on_message_status
    (chk : Schema → Json → CheckOutcome) (s : DeviceState) (raw : Option Json) :
    (on_message chk s raw).status = s.status := by
  cases raw with
  | none => rfl
  | some payload =>
    cases hf : payload.getField "state" with
    | none => simp [on_message, hf]
    | some desired =>
      cases hv : SchemaValidator.validate_command chk s.validator.schemas desired <;>
        simp [on_message, hf, hv]

theorem step_status_of_not_connEvent
    (chk : Schema → Json → CheckOutcome) (s : DeviceState) (e : Event)
    (h : connEvent e = false) :
    (step chk s e).status = s.status := by
  cases e with
  | connectAck rc => simp [connEvent] at h
  | disconnectEvt rc => simp [connEvent] at h
  | connectTimeout => simp [connEvent] at h
  | publishTel now p r => exact publish_telemetry_status chk s now p r
  | message raw => exact on_message_status chk s raw
  | loopError => rfl

theorem step_status_ne_inactive_of_connEvent
    (chk : Schema → Json → CheckOutcome) (s : DeviceState) (e : Event)
    (h : connEvent e = true) :
    (step chk s e).status ≠ DeviceStatus.INACTIVE := by
  cases e with
  | connectAck rc =>
    by_cases h0 : rc = 0 <;> simp [step, on_connect, h0]
  | disconnectEvt rc => simp [step, on_disconnect]
  | connectTimeout => simp [step]
  | publishTel now p r => simp [connEvent] at h
  | message raw => simp [connEvent] at h
  | loopError => simp [connEvent] at h

theorem step_inactive_source
    (chk : Schema → Json → CheckOutcome) (s : DeviceState) (e : Event)
    (h : (step chk s e).status = DeviceStatus.INACTIVE) :
    s.status = DeviceStatus.INACTIVE := by
  by_cases hc : connEvent e = true
  · exact absurd h (step_status_ne_inactive_of_connEvent chk s e hc)
  · rw [← step_status_of_not_connEvent chk s e (Bool.not_eq_true _ ▸ hc)]
    exact h

theorem foldl_inactive_source
    (chk : Schema → Json → CheckOutcome) (tr : List Event) (s : DeviceState)
    (h : (List.foldl (step chk) s tr).status = DeviceStatus.INACTIVE) :
    s.status = DeviceStatus.INACTIVE := by
  induction tr generalizing s with
  | nil => exact h
  | cons e rest ih =>
    exact step_inactive_source chk s e (ih (step chk s e) h)

theorem foldl_inactive_no_connEvent
    (chk : Schema → Json → CheckOutcome) (tr : List Event) (s : DeviceState)
    (h : (List.foldl (step chk) s tr).status = DeviceStatus.INACTIVE) :
    ∀ e ∈ tr, connEvent e = false := by
  induction tr generalizing s with
  | nil => intro e he; cases he
  | cons e0 rest ih =>
    intro e he
    have hmid : (step chk s e0).status = DeviceStatus.INACTIVE :=
      foldl_inactive_source chk rest (step chk s e0) h
    cases he with
    | head =>
      by_cases hc : connEvent e0 = true
      · exact absurd hmid (step_status_ne_inactive_of_connEvent chk s e0 hc)
      · exact Bool.not_eq_true _ ▸ hc
    | tail _ hmem => exact ih (step chk s e0) h e hmem

/-! ## Claim theorems -/

/-- C3: `validate(M, S)` is fail-closed and total: a missing or malformed
schema file leaves schema `S` absent from the loaded set; an absent schema
makes `validate` return `false` for every message; a `ValidationError`
from the structural check yields `false`; any other exception from the
check also yields `false` (nothing propagates to the caller); and
`validate` returns `true` exactly when the schema is present and the
structural check passes. -/
theorem C3_validate_fail_closed
    (chk : Schema → Json → CheckOutcome) (fs : String → LoadResult)
    (m : Json) (name : String) :
    (∀ file, (name, file) ∈ schema_files →
        (fs file = LoadResult.notFound ∨ fs file = LoadResult.malformed) →
        lookupSchema (load_schemas fs) name = none)
    ∧ (lookupSchema (load_schemas fs) name = none →
        SchemaValidator.validate chk (load_schemas fs) m name = false)
    ∧ (∀ sch path, lookupSchema (load_schemas fs) name = some sch →
        chk sch m = CheckOutcome.invalid path →
        SchemaValidator.validate chk (load_schemas fs) m name = false)
    ∧ (∀ sch, lookupSchema (load_schemas fs) name = some sch →
        chk sch m = CheckOutcome.crash →
        SchemaValidator.validate chk (load_schemas fs) m name = false)
    ∧ (SchemaValidator.validate chk (load_schemas fs) m name = true ↔
        ∃ sch, lookupSchema (load_schemas fs) name = some sch
          ∧ chk sch m = CheckOutcome.ok) := by
  refine ⟨?_, ?_, ?_, ?_, ?_⟩
  · intro file hmem habsent
    simp only [schema_files, List.mem_cons, List.not_mem_nil, or_false] at hmem
    rcases hmem with h | h | h
    all_goals {
      rw [Prod.mk.injEq] at h
      obtain ⟨hn, hf⟩ := h
      subst hn; subst hf
      rcases habsent with ha | ha <;>
      · cases h1 : fs "telemetry.schema.json" <;>
          cases h2 : fs "alert.schema.json" <;>
            cases h3 : fs "command.schema.json" <;>
              simp_all [load_schemas, schema_files, lookupSchema]
    }
  · intro h
    simp [SchemaValidator.validate, h]
  · intro sch path h hc
    simp [SchemaValidator.validate, h, hc]
  · intro sch h hc
    simp [SchemaValidator.validate, h, hc]
  · constructor
    · intro h
      cases hl : lookupSchema (load_schemas fs) name with
      | none => simp [SchemaValidator.validate, hl] at h
      | some sch =>
        refine ⟨sch, rfl, ?_⟩
        cases hc : chk sch m <;> simp [SchemaValidator.validate, hl, hc] at h ⊢
    · rintro ⟨sch, hl, hc⟩
      simp [SchemaValidator.validate, hl, hc]

/-- C3 witness: with every schema file missing, validating against
`"telemetry"` returns `false`; with all schemas loaded, a structurally
invalid message (the empty object) also returns `false`. -/
theorem C3_validate_fail_closed_witness :
    SchemaValidator.validate jsonschemaCheck (load_schemas fsNone)
      (Json.obj []) "telemetry" = false
    ∧ SchemaValidator.validate jsonschemaCheck (load_schemas fsAll)
      (Json.obj []) "telemetry" = false :=
  ⟨(C3_validate_fail_closed jsonschemaCheck fsNone (Json.obj []) "telemetry").2.1 rfl,
   (C3_validate_fail_closed jsonschemaCheck fsAll (Json.obj []) "telemetry").2.2.1
     telemetrySchema [] rfl rfl⟩

/-- C8: the validator is deterministic and idempotent: a validation call
leaves the loaded schema set and the message unchanged, and if `validate`
returned `true` then validating the very schemas and message it returned
yields `true` again — repeated calls always agree. -/
theorem C8_validate_idempotent
    (chk : Schema → Json → CheckOutcome) (schemas : List (String × Schema))
    (m : Json) (name : String) :
    (SchemaValidator.validateSt chk schemas m name).2.1 = schemas
    ∧ (SchemaValidator.validateSt chk schemas m name).2.2 = m
    ∧ (SchemaValidator.validate chk schemas m name = true →
        SchemaValidator.validate chk
          (SchemaValidator.validateSt chk schemas m name).2.1
          (SchemaValidator.validateSt chk schemas m name).2.2 name = true)
    ∧ (SchemaValidator.validateSt chk
        (SchemaValidator.validateSt chk schemas m name).2.1
        (SchemaValidator.validateSt chk schemas m name).2.2 name
        = SchemaValidator.validateSt chk schemas m name) :=
  ⟨rfl, rfl, fun h => h, rfl⟩

/-- C8 witness: the concrete telemetry envelope validates to `true`, and
re-validating the identical message against the unchanged schema set is
`true` again. -/
theorem C8_validate_idempotent_witness :
    SchemaValidator.validate jsonschemaCheck (load_schemas fsAll) envTemp "telemetry" = true
    ∧ SchemaValidator.validate jsonschemaCheck
        (SchemaValidator.validateSt jsonschemaCheck (load_schemas fsAll) envTemp "telemetry").2.1
        (SchemaValidator.validateSt jsonschemaCheck (load_schemas fsAll) envTemp "telemetry").2.2
        "telemetry" = true :=
  ⟨rfl,
   (C8_validate_idempotent jsonschemaCheck (load_schemas fsAll) envTemp "telemetry").2.2.1 rfl⟩

/-- C10: `get_validator` is idempotent: the first call constructs the
validator by loading the schemas and caches it; every later call returns
that same cached instance with the module state unchanged, and every
device constructed afterwards holds that same validator (so two devices
built in sequence share one validator and schema set). -/
theorem C10_get_validator_idempotent
    (fs : String → LoadResult) (p0 : ProcState)
    (cfg cfg2 : DeviceConfig) (now now2 : Nat) :
    (get_validator fs (get_validator fs p0).2
      = ((get_validator fs p0).1, (get_validator fs p0).2))
    ∧ (p0.validatorG = none →
        (get_validator fs p0).1.schemas = load_schemas fs)
    ∧ ((BaseDevice_init cfg fs now p0).1.validator = (get_validator fs p0).1)
    ∧ ((BaseDevice_init cfg2 fs now2 (BaseDevice_init cfg fs now p0).2).1.validator
        = (BaseDevice_init cfg fs now p0).1.validator) := by
  obtain ⟨vg⟩ := p0
  cases vg with
  | none => exact ⟨rfl, fun _ => rfl, rfl, rfl⟩
  | some v => exact ⟨rfl, fun h => Option.noConfusion h, rfl, rfl⟩

/-- C10 witness: starting from the module's initial state (no cached
validator), the first call loads the schemas, and a second device built
after `device-1` shares `device-1`'s validator. -/
theorem C10_get_validator_idempotent_witness :
    (get_validator fsAll ⟨none⟩).1.schemas = load_schemas fsAll
    ∧ ((BaseDevice_init cfgTemp fsAll 3 (BaseDevice_init cfgTemp fsAll 0 ⟨none⟩).2).1.validator
        = (BaseDevice_init cfgTemp fsAll 0 ⟨none⟩).1.validator) :=
  ⟨(C10_get_validator_idempotent fsAll ⟨none⟩ cfgTemp cfgTemp 0 3).2.1 rfl,
   (C10_get_validator_idempotent fsAll ⟨none⟩ cfgTemp cfgTemp 0 3).2.2.2⟩

/-- C9: when the built telemetry envelope fails schema validation,
`publish_telemetry` returns with the session state completely unchanged —
in particular nothing is handed to the transport and `error_count`,
`uptime_seconds`, `last_published` and `last_heartbeat` keep their
values. -/
theorem C9_validation_failure_frame
    (chk : Schema → Json → CheckOutcome) (s : DeviceState)
    (now : Nat) (p : Json) (r : Bool)
    (h : SchemaValidator.validate_telemetry chk s.validator.schemas
          (build_telemetry_message s.config now p) = false) :
    publish_telemetry chk s now p r = s := by
  simp [publish_telemetry, h]

/-- C9 witness: with no telemetry schema loaded, validation fails and a
publish attempt leaves the device state exactly as it was. -/
theorem C9_validation_failure_frame_witness :
    publish_telemetry jsonschemaCheck devInitNone 7 payloadTemp false = devInitNone :=
  C9_validation_failure_frame jsonschemaCheck devInitNone 7 payloadTemp false rfl

/-- C4: `error_count` is reset to exactly 0 by every successful connect
acknowledgment (code 0); a failed connect acknowledgment, a publish
exception and a loop-iteration exception each strictly increase it by
one; no event other than a successful connect ever decreases it (also
along whole traces); and in particular a successful connect right after
a failed publish leaves it at 0. -/
theorem C4_error_count_reset
    (chk : Schema → Json → CheckOutcome) (s : DeviceState) :
    ((step chk s (Event.connectAck 0)).error_count = 0)
    ∧ (∀ rc, rc ≠ 0 →
        (step chk s (Event.connectAck rc)).error_count = s.error_count + 1)
    ∧ ((step chk s Event.loopError).error_count = s.error_count + 1)
    ∧ (∀ now p, SchemaValidator.validate_telemetry chk s.validator.schemas
          (build_telemetry_message s.config now p) = true →
        (step chk s (Event.publishTel now p true)).error_count = s.error_count + 1)
    ∧ (∀ e, e ≠ Event.connectAck 0 →
        s.error_count ≤ (step chk s e).error_count)
    ∧ (∀ tr, (∀ e ∈ tr, e ≠ Event.connectAck 0) →
        s.error_count ≤ (List.foldl (step chk) s tr).error_count)
    ∧ (∀ now p r,
        (step chk (step chk s (Event.publishTel now p r))
          (Event.connectAck 0)).error_count = 0) := by
  have hstep : ∀ (s : DeviceState) (e : Event), e ≠ Event.connectAck 0 →
      s.error_count ≤ (step chk s e).error_count := by
    intro s e he
    cases e with
    | connectAck rc =>
      cases rc with
      | zero => exact absurd rfl he
      | succ k => simp [step, on_connect]
    | disconnectEvt rc => simp [step, on_disconnect]
    | publishTel now p r => exact publish_telemetry_error_count_ge chk s now p r
    | message raw => exact Nat.le_of_eq (on_message_error_count chk s raw).symm
    | loopError => simp [step]
    | connectTimeout => simp [step]
  refine ⟨by simp [step, on_connect], ?_, by simp [step], ?_, hstep s, ?_, ?_⟩
  · intro rc hrc
    simp [step, on_connect, hrc]
  · intro now p hv
    simp [step, publish_telemetry, hv]
  · intro tr htr
    induction tr generalizing s with
    | nil => exact Nat.le_refl _
    | cons e rest ih =>
      exact Nat.le_trans (hstep s e (htr e (List.mem_cons_self e rest)))
        (ih (step chk s e) (fun x hx => htr x (List.mem_cons_of_mem e hx)))
  · intro now p r
    simp [step, on_connect]

/-- C4 witness: on `device-1`, a failed publish (transport exception
after the envelope validated) raises `error_count` from 0 to 1, and the
following successful connect acknowledgment resets it to 0. -/
theorem C4_error_count_reset_witness :
    (step jsonschemaCheck devConn (Event.publishTel 5 payloadTemp true)).error_count = 1
    ∧ (step jsonschemaCheck
        (step jsonschemaCheck devConn (Event.publishTel 5 payloadTemp true))
        (Event.connectAck 0)).error_count = 0 :=
  ⟨(C4_error_count_reset jsonschemaCheck devConn).2.2.2.1 5 payloadTemp rfl,
   (C4_error_count_reset jsonschemaCheck devConn).2.2.2.2.2.2 5 payloadTemp true⟩

/-- C1 counterexample: after a successful connect, one failed publish
(transport exception) increments `error_count` to 1 while the session is
still connected — yet `status` remains `ACTIVE` and is not `ERROR`,
contradicting both the "ACTIVE iff no errors since connect" and the
"ERROR whenever error_count increased while connected" clauses. -/
theorem C1_status_derivation_counterexample :
    (step jsonschemaCheck devConn (Event.publishTel 5 payloadTemp true)).is_connected = true
    ∧ (step jsonschemaCheck devConn (Event.publishTel 5 payloadTemp true)).error_count = 1
    ∧ (step jsonschemaCheck devConn (Event.publishTel 5 payloadTemp true)).status
        = DeviceStatus.ACTIVE
    ∧ (step jsonschemaCheck devConn (Event.publishTel 5 payloadTemp true)).status
        ≠ DeviceStatus.ERROR :=
  ⟨rfl, rfl, rfl, by decide⟩

/-- C1 amended: status is written only by connection-lifecycle events —
a successful connect acknowledgment sets `ACTIVE` (and connected, with
`error_count` 0); a failed acknowledgment sets `ERROR` leaving the
connected flag; a disconnect sets `OFFLINE` and not-connected; a connect
timeout sets `ERROR`; publish, inbound-message and loop-error events
never change status (so `error_count` may grow while status stays
`ACTIVE`); and in every reachable session state, status is `INACTIVE`
only while no connection-lifecycle event has occurred. -/
theorem C1_status_derivation_amended
    (chk : Schema → Json → CheckOutcome) (s : DeviceState) :
    ((step chk s (Event.connectAck 0)).status = DeviceStatus.ACTIVE
      ∧ (step chk s (Event.connectAck 0)).is_connected = true
      ∧ (step chk s (Event.connectAck 0)).error_count = 0)
    ∧ (∀ rc, rc ≠ 0 →
        (step chk s (Event.connectAck rc)).status = DeviceStatus.ERROR
        ∧ (step chk s (Event.connectAck rc)).is_connected = s.is_connected)
    ∧ (∀ rc, (step chk s (Event.disconnectEvt rc)).status = DeviceStatus.OFFLINE
        ∧ (step chk s (Event.disconnectEvt rc)).is_connected = false)
    ∧ ((step chk s Event.connectTimeout).status = DeviceStatus.ERROR)
    ∧ (∀ e, connEvent e = false → (step chk s e).status = s.status)
    ∧ (∀ cfg fs now0 tr,
        (runTrace chk cfg fs now0 tr).status = DeviceStatus.INACTIVE →
        ∀ e ∈ tr, connEvent e = false) := by
  refine ⟨⟨by simp [step, on_connect], by simp [step, on_connect],
           by simp [step, on_connect]⟩, ?_, ?_, by simp [step], ?_, ?_⟩
  · intro rc hrc
    exact ⟨by simp [step, on_connect, hrc], by simp [step, on_connect, hrc]⟩
  · intro rc
    exact ⟨rfl, rfl⟩
  · exact step_status_of_not_connEvent chk s
  · intro cfg fs now0 tr h
    exact foldl_inactive_no_connEvent chk tr _ h

/-- C1 amended witness: a failed connect acknowledgment on `device-1`
sets `ERROR`; a disconnect sets `OFFLINE`; a loop error leaves the
status of the connected device untouched; and the fresh device (whose
trace holds one non-connection event) is still `INACTIVE`. -/
theorem C1_status_derivation_amended_witness :
    (step jsonschemaCheck devInit (Event.connectAck 5)).status = DeviceStatus.ERROR
    ∧ (step jsonschemaCheck devConn (Event.disconnectEvt 1)).status = DeviceStatus.OFFLINE
    ∧ (step jsonschemaCheck devConn Event.loopError).status = devConn.status
    ∧ connEvent Event.loopError = false :=
  ⟨((C1_status_derivation_amended jsonschemaCheck devInit).2.1 5 (by decide)).1,
   ((C1_status_derivation_amended jsonschemaCheck devConn).2.2.1 1).1,
   (C1_status_derivation_amended jsonschemaCheck devConn).2.2.2.2.1 Event.loopError rfl,
   (C1_status_derivation_amended jsonschemaCheck devInit).2.2.2.2.2
     cfgTemp fsAll 0 [Event.loopError] rfl Event.loopError (List.mem_singleton.mpr rfl)⟩

/-- C5: for every identity and payload the published telemetry envelope
is exactly `{device_id, timestamp, type, payload}` with the timestamp
being the send-time clock in whole seconds (never caller-supplied) and
`type = "sensor"` exactly when `device_type` contains the substring
`"sensor"` (else `"actuator"`); concretely, `device-1`
(`temperature_sensor`) publishing `{temperature: 22.5, unit: "celsius"}`
at `T = 1701648000` hands the transport exactly the spec's envelope on
topic `devices/device-1/telemetry`. -/
theorem C5_telemetry_envelope
    (cfg : DeviceConfig) (now : Nat) (p : Json) :
    (build_telemetry_message cfg now p
      = Json.obj [("device_id", Json.str cfg.device_id),
                  ("timestamp", Json.num (Int.ofNat now) 0),
                  ("type", Json.str (device_type_class cfg.device_type)),
                  ("payload", p)])
    ∧ (device_type_class cfg.device_type = "sensor"
        ↔ ∃ pre suf : List Char, cfg.device_type.data
            = pre ++ "sensor".data ++ suf)
    ∧ (device_type_class cfg.device_type = "sensor"
        ∨ device_type_class cfg.device_type = "actuator")
    ∧ (telemetry_topic cfg = "devices/" ++ cfg.device_id ++ "/telemetry")
    ∧ ((publish_telemetry jsonschemaCheck devConn 1701648000 payloadTemp false).outbox
        = [("devices/device-1/telemetry", envTemp)]) := by
  refine ⟨rfl, ?_, ?_, rfl, rfl⟩
  · constructor
    · intro h
      unfold device_type_class at h
      by_cases hin : "sensor".data <:+: cfg.device_type.data
      · obtain ⟨pre, suf, hps⟩ := hin
        exact ⟨pre, suf, hps.symm⟩
      · rw [if_neg hin] at h
        exact absurd h (by decide)
    · rintro ⟨pre, suf, hps⟩
      unfold device_type_class
      rw [if_pos ⟨pre, suf, hps.symm⟩]
  · unfold device_type_class
    by_cases hin : "sensor".data <:+: cfg.device_type.data
    · exact Or.inl (if_pos hin)
    · exact Or.inr (if_neg hin)

/-- C6: an inbound shadow delta whose desired state fails the command
schema is dropped without invoking the command handler; the handler is
invoked only on a desired state that `validate_command` accepted (then
exactly once); and the spec's concrete `{state: {action: "LOCK"}}`
message (missing `request_id`) leaves the device untouched. -/
theorem C6_invalid_command_dropped
    (chk : Schema → Json → CheckOutcome) (s : DeviceState) (raw : Option Json) :
    (∀ payload desired, raw = some payload →
        payload.getField "state" = some desired →
        SchemaValidator.validate_command chk s.validator.schemas desired = false →
        on_message chk s raw = s)
    ∧ ((on_message chk s raw).handled = s.handled
        ∨ ∃ payload desired, raw = some payload
            ∧ payload.getField "state" = some desired
            ∧ SchemaValidator.validate_command chk s.validator.schemas desired = true
            ∧ (on_message chk s raw).handled = s.handled ++ [desired])
    ∧ (on_message jsonschemaCheck devConn (some lockDelta) = devConn) := by
  refine ⟨?_, ?_, rfl⟩
  · intro payload desired hraw hstate hval
    subst hraw
    simp [on_message, hstate, hval]
  · cases raw with
    | none => exact Or.inl rfl
    | some payload =>
      cases hf : payload.getField "state" with
      | none => exact Or.inl (by simp [on_message, hf])
      | some desired =>
        cases hv : SchemaValidator.validate_command chk s.validator.schemas desired with
        | false => exact Or.inl (by simp [on_message, hf, hv])
        | true =>
          exact Or.inr ⟨payload, desired, rfl, hf, hv, by simp [on_message, hf, hv]⟩

/-- C6 witness: the `{state: {action: "LOCK"}}` delta fails command
validation on the loaded schemas and the message handler drops it,
leaving the device state unchanged. -/
theorem C6_invalid_command_dropped_witness :
    on_message jsonschemaCheck devConn (some lockDelta) = devConn :=
  (C6_invalid_command_dropped jsonschemaCheck devConn (some lockDelta)).1
    lockDelta lockBody rfl rfl rfl

/-- C7 counterexample: `device-1` freshly constructed is not connected,
yet a publish call still hands the validated envelope to the transport
client (so it is not a no-op with respect to the transport) and leaves
`error_count` exactly as it was instead of incrementing it. -/
theorem C7_publish_disconnected_counterexample :
    devInit.is_connected = false
    ∧ devInit.outbox = []
    ∧ (publish_telemetry jsonschemaCheck devInit 1701648000 payloadTemp false).outbox
        = [("devices/device-1/telemetry", envTemp)]
    ∧ (publish_telemetry jsonschemaCheck devInit 1701648000 payloadTemp false).error_count
        = devInit.error_count
    ∧ (publish_telemetry jsonschemaCheck devInit 1701648000 payloadTemp false).error_count
        ≠ devInit.error_count + 1 :=
  ⟨rfl, rfl, rfl, rfl, by decide⟩

/-- C7 amended: `publish_telemetry` never consults the connection flag:
while not connected it behaves exactly as while connected — the envelope
is validated and, if valid, still handed to the transport publish call —
and `error_count` is unchanged unless the transport call raises an
exception, in which case it increments by one. -/
theorem C7_publish_disconnected_amended
    (chk : Schema → Json → CheckOutcome) (s : DeviceState)
    (now : Nat) (p : Json)
    (_hnc : s.is_connected = false) :
    ((publish_telemetry chk s now p false).error_count = s.error_count)
    ∧ ((publish_telemetry chk s now p true).error_count
        = if SchemaValidator.validate_telemetry chk s.validator.schemas
              (build_telemetry_message s.config now p)
          then s.error_count + 1 else s.error_count)
    ∧ (SchemaValidator.validate_telemetry chk s.validator.schemas
          (build_telemetry_message s.config now p) = true →
        (publish_telemetry chk s now p false).outbox
          = s.outbox ++ [(telemetry_topic s.config,
              build_telemetry_message s.config now p)]) := by
  refine ⟨?_, ?_, ?_⟩
  · cases hv : SchemaValidator.validate_telemetry chk s.validator.schemas
        (build_telemetry_message s.config now p) <;>
      simp [publish_telemetry, hv]
  · cases hv : SchemaValidator.validate_telemetry chk s.validator.schemas
        (build_telemetry_message s.config now p) <;>
      simp [publish_telemetry, hv]
  · intro hv
    simp [publish_telemetry, hv]

/-- C7 amended witness: on the disconnected fresh `device-1`, a publish
without a transport exception keeps `error_count` and appends the
envelope to the transport outbox; with a transport exception it
increments `error_count`. -/
theorem C7_publish_disconnected_amended_witness :
    ((publish_telemetry jsonschemaCheck devInit 1701648000 payloadTemp false).error_count
      = devInit.error_count)
    ∧ ((publish_telemetry jsonschemaCheck devInit 1701648000 payloadTemp false).outbox
      = devInit.outbox ++ [(telemetry_topic cfgTemp,
          build_telemetry_message cfgTemp 1701648000 payloadTemp)]) :=
  ⟨(C7_publish_disconnected_amended jsonschemaCheck devInit 1701648000 payloadTemp rfl).1,
   (C7_publish_disconnected_amended jsonschemaCheck devInit 1701648000 payloadTemp rfl).2.2 rfl⟩

theorem run_loop_normal_not_connected
    (chk : Schema → Json → CheckOutcome) (interval : Nat) :
    ∀ (sched : List IterOutcome) (s : DeviceState),
      (run_loop chk interval s sched).2.1 = ExitKind.normal →
      (run_loop chk interval s sched).1.is_connected = false := by
  intro sched
  induction sched with
  | nil =>
    intro s h
    by_cases hc : s.is_connected = true <;> simp [run_loop, hc] at h ⊢
  | cons o rest ih =>
    intro s h
    by_cases hc : s.is_connected = true
    · cases o with
      | ok now p pr sr =>
        simp only [run_loop, hc, if_true] at h ⊢
        exact ih _ h
      | iterError =>
        simp only [run_loop, hc, if_true] at h ⊢
        exact ih _ h
      | interrupt => simp [run_loop, hc] at h
      | connectionLost rc =>
        simp only [run_loop, hc, if_true] at h ⊢
        exact ih _ h
    · simp [run_loop, hc] at h ⊢

theorem run_loop_interrupted_mem
    (chk : Schema → Json → CheckOutcome) (interval : Nat) :
    ∀ (sched : List IterOutcome) (s : DeviceState),
      (run_loop chk interval s sched).2.1 = ExitKind.interrupted →
      IterOutcome.interrupt ∈ sched := by
  intro sched
  induction sched with
  | nil =>
    intro s h
    by_cases hc : s.is_connected = true <;> simp [run_loop, hc] at h
  | cons o rest ih =>
    intro s h
    by_cases hc : s.is_connected = true
    · cases o with
      | ok now p pr sr =>
        simp only [run_loop, hc, if_true] at h
        exact List.mem_cons_of_mem _ (ih _ h)
      | iterError =>
        simp only [run_loop, hc, if_true] at h
        exact List.mem_cons_of_mem _ (ih _ h)
      | interrupt => exact List.mem_cons_self _ _
      | connectionLost rc =>
        simp only [run_loop, hc, if_true] at h
        exact List.mem_cons_of_mem _ (ih _ h)
    · simp [run_loop, hc] at h

/-- C2 counterexample: a cycle of the telemetry loop in which
`update_shadow` raises internally (its own `except` swallows the
exception and only logs) leaves `error_count` at 0 instead of
incrementing it by one — though the loop does sleep the interval,
continue, and exit only at the scheduled interrupt. -/
theorem C2_run_loop_counterexample :
    (run_loop jsonschemaCheck 5 devConn
        [IterOutcome.ok 1 payloadTemp false true, IterOutcome.interrupt]).1.error_count = 0
    ∧ (run_loop jsonschemaCheck 5 devConn
        [IterOutcome.ok 1 payloadTemp false true, IterOutcome.interrupt]).2.2
        = [Action.sleep 5]
    ∧ (run_loop jsonschemaCheck 5 devConn
        [IterOutcome.ok 1 payloadTemp false true, IterOutcome.interrupt]).2.1
        = ExitKind.interrupted
    ∧ (run_loop jsonschemaCheck 5 devConn
        [IterOutcome.ok 1 payloadTemp false true, IterOutcome.interrupt]).1.error_count
        ≠ 0 + 1 :=
  ⟨rfl, rfl, rfl, by decide⟩

/-- C2 amended: an exception escaping an iteration to the loop's
`except` (e.g. from `generate_telemetry`) increments `error_count` by
one, sleeps the same interval, and the loop continues; an exception
inside `publish_telemetry` is caught there and also increments
`error_count` by one; an exception inside `update_shadow` is swallowed
there with `error_count` unchanged.  The loop exits only on interrupt or
on the connected flag being false (a normal exit always finds it false,
an interrupted exit always has an interrupt in the schedule), and
`disconnect` is invoked as the guaranteed final action of `run` on every
exit path. -/
theorem C2_run_loop_amended
    (chk : Schema → Json → CheckOutcome) (interval : Nat) (s : DeviceState)
    (sched rest : List IterOutcome) :
    (s.is_connected = true →
      run_loop chk interval s (IterOutcome.iterError :: rest)
        = ((run_loop chk interval { s with error_count := s.error_count + 1 } rest).1,
           (run_loop chk interval { s with error_count := s.error_count + 1 } rest).2.1,
           Action.sleep interval ::
             (run_loop chk interval { s with error_count := s.error_count + 1 } rest).2.2))
    ∧ (∀ now p, SchemaValidator.validate_telemetry chk s.validator.schemas
          (build_telemetry_message s.config now p) = true →
        (publish_telemetry chk s now p true).error_count = s.error_count + 1)
    ∧ (∀ reported, update_shadow s reported true = s)
    ∧ (s.is_connected = false →
        run_loop chk interval s sched = (s, ExitKind.normal, []))
    ∧ (s.is_connected = true →
        run_loop chk interval s (IterOutcome.interrupt :: rest)
          = (s, ExitKind.interrupted, []))
    ∧ ((run_loop chk interval s sched).2.1 = ExitKind.normal →
        (run_loop chk interval s sched).1.is_connected = false)
    ∧ ((run_loop chk interval s sched).2.1 = ExitKind.interrupted →
        IterOutcome.interrupt ∈ sched)
    ∧ ((BaseDevice_run chk interval s sched).2.2.getLast? = some Action.disconnectCall) := by
  refine ⟨?_, ?_, ?_, ?_, ?_, ?_, ?_, ?_⟩
  · intro h
    simp [run_loop, h]
  · intro now p hv
    simp [publish_telemetry, hv]
  · intro reported
    simp [update_shadow]
  · intro h
    cases sched with
    | nil => simp [run_loop, h]
    | cons o r2 => simp [run_loop, h]
  · intro h
    simp [run_loop, h]
  · exact run_loop_normal_not_connected chk interval sched s
  · exact run_loop_interrupted_mem chk interval sched s
  · simp [BaseDevice_run, List.getLast?_concat]

/-- C2 amended witness: on the connected `device-1`, a loop-caught
iteration error increments `error_count` and sleeps the interval before
continuing; on the disconnected fresh device the loop exits normally at
once; and a run of the disconnected device still ends with the
`disconnect` call. -/
theorem C2_run_loop_amended_witness :
    (run_loop jsonschemaCheck 5 devConn [IterOutcome.iterError]
      = ((run_loop jsonschemaCheck 5 { devConn with error_count := devConn.error_count + 1 } []).1,
         (run_loop jsonschemaCheck 5 { devConn with error_count := devConn.error_count + 1 } []).2.1,
         Action.sleep 5 ::
           (run_loop jsonschemaCheck 5 { devConn with error_count := devConn.error_count + 1 } []).2.2))
    ∧ (run_loop jsonschemaCheck 5 devInit [IterOutcome.iterError]
        = (devInit, ExitKind.normal, []))
    ∧ ((BaseDevice_run jsonschemaCheck 5 devInit []).2.2.getLast?
        = some Action.disconnectCall) :=
  ⟨(C2_run_loop_amended jsonschemaCheck 5 devConn [] []).1 rfl,
   (C2_run_loop_amended jsonschemaCheck 5 devInit [IterOutcome.iterError] []).2.2.2.1 rfl,
   (C2_run_loop_amended jsonschemaCheck 5 devInit [] []).2.2.2.2.2.2.2⟩

end IoTFleet
